import Mathlib

/-!
Shallow embedding of the iframe-remote message-correlation / RPC core.

The repository contains four structurally identical correlation engines:
`ParentCommunicator` / `ChildCommunicator` (plain message/request/response,
`src/parent.ts` and `src/child.ts`) and `ParentRPC` / `ChildRPC`
(`src/rpc.ts`).  The parent and child classes of each pair differ only in how
the peer `Window` reference is obtained; their message handling, pending-call
table, timeout and destroy logic are line-for-line the same.  We therefore
embed one `CommState` (both Communicator classes) and one `RPCState` (both RPC
classes), with the peer reference abstracted away.

Nondeterministic or environment-supplied data (generated call ids, whether
`postMessage` throws, what a user handler returns) appear as explicit
parameters of the operations.  Observable actions (settling a promise,
scheduling/clearing a timer, posting a message, invoking the `onMessage` /
`onError` callbacks) are returned as an explicit `Effect` trace.
-/

namespace IframeRemote

/-- JS values as carried in message payloads / args (a JSON-like universe;
numbers are modelled as integers, which covers every value the repository's
tests and the claims exercise). -/
inductive JSValue where
  | undef : JSValue
  | nullV : JSValue
  | boolV : Bool → JSValue
  | num : Int → JSValue
  | str : String → JSValue
  | arr : List JSValue → JSValue
  | obj : List (String × JSValue) → JSValue

/-- A JS `Error` as observed by this library: the `message` plus the optional
machine-readable `code` of `RPCError` (src/types-rpc.ts: `class RPCError
extends Error { constructor(message, public code?, public data?) }`).
Plain `Error` values have `code = none`. -/
structure JSError where
  message : String
  code : Option String := none
deriving DecidableEq, Repr

/-- JS truthiness-based fallback `a || b` for an optional number
(`undefined` and `0` are falsy). -/
def jsOrNat : Option Nat → Nat → Nat
  | none, d => d
  | some 0, d => d
  | some (n + 1), _ => n + 1

/-- JS truthiness-based fallback `a || b` for an optional string
(`undefined` and `""` are falsy). -/
def jsOrStr : Option String → String → String
  | none, d => d
  | some s, d => if s = "" then d else s

/-! ### JS `Map` semantics over association lists

`pendingRequests` / `pendingCalls` / `handlers` / `exposedFunctions` are JS
`Map`s.  `Map.set` updates in place (keeping insertion order) or appends;
`Map.get` / `Map.delete` address the unique entry for a key.  We model a `Map`
as an association list whose operations preserve key uniqueness. -/

/-- `Map.get`: first (and, for lists built by `mSet`, only) binding of `k`. -/
def mGet : List (String × α) → String → Option α
  | [], _ => none
  | (k', v) :: rest, k => if k' = k then some v else mGet rest k

/-- `Map.set`: replace the binding of `k` in place, else append. -/
def mSet : List (String × α) → String → α → List (String × α)
  | [], k, v => [(k, v)]
  | (k', v') :: rest, k, v =>
      if k' = k then (k, v) :: rest else (k', v') :: mSet rest k v

/-- `Map.delete`: remove the binding of `k`. -/
def mDelete : List (String × α) → String → List (String × α)
  | [], _ => []
  | (k', v') :: rest, k => if k' = k then rest else (k', v') :: mDelete rest k

/-- Key uniqueness: what a JS `Map` guarantees structurally. -/
def keysNodup (m : List (String × α)) : Prop := (m.map Prod.fst).Nodup

instance (m : List (String × α)) : Decidable (keysNodup m) := by
  unfold keysNodup; infer_instance

theorem mGet_mSet_self (m : List (String × α)) (k : String) (v : α) :
    mGet (mSet m k v) k = some v := by
  induction m with
  | nil => simp [mSet, mGet]
  | cons hd tl ih =>
      obtain ⟨k', v'⟩ := hd
      by_cases h : k' = k <;> simp [mSet, mGet, h, ih]

theorem mGet_mSet_ne (m : List (String × α)) (k k' : String) (v : α)
    (h : k' ≠ k) : mGet (mSet m k v) k' = mGet m k' := by
  have h' : ¬k = k' := fun hh => h hh.symm
  induction m with
  | nil => simp [mSet, mGet, h']
  | cons hd tl ih =>
      obtain ⟨k₀, v₀⟩ := hd
      by_cases h₀ : k₀ = k
      · subst h₀; simp [mSet, mGet, h']
      · by_cases h₁ : k₀ = k' <;> simp [mSet, mGet, h₀, h₁, h, ih]

theorem keys_mSet (m : List (String × α)) (k : String) (v : α) :
    (mSet m k v).map Prod.fst =
      if k ∈ m.map Prod.fst then m.map Prod.fst else m.map Prod.fst ++ [k] := by
  induction m with
  | nil => simp [mSet]
  | cons hd tl ih =>
      obtain ⟨k', v'⟩ := hd
      by_cases h : k' = k
      · subst h; simp [mSet]
      · have h' : ¬k = k' := fun hh => h hh.symm
        by_cases h₂ : k ∈ tl.map Prod.fst <;>
          simp [mSet, h, h', h₂, ih]

theorem keysNodup_mSet (m : List (String × α)) (k : String) (v : α)
    (hnd : keysNodup m) : keysNodup (mSet m k v) := by
  unfold keysNodup at *
  rw [keys_mSet]
  by_cases h : k ∈ m.map Prod.fst
  · simpa [h] using hnd
  · have hdisj : (m.map Prod.fst).Disjoint [k] := by
      intro a ha hak
      simp only [List.mem_singleton] at hak
      exact h (hak ▸ ha)
    simpa [h] using List.Nodup.append hnd (List.nodup_singleton k) hdisj

theorem keys_mDelete_sublist (m : List (String × α)) (k : String) :
    ((mDelete m k).map Prod.fst).Sublist (m.map Prod.fst) := by
  induction m with
  | nil => simp [mDelete]
  | cons hd tl ih =>
      obtain ⟨k', v'⟩ := hd
      by_cases h : k' = k
      · simp only [mDelete, if_pos h]
        exact List.Sublist.cons k' (List.Sublist.refl _)
      · simpa [mDelete, h] using ih.cons₂ k'

theorem keysNodup_mDelete (m : List (String × α)) (k : String)
    (hnd : keysNodup m) : keysNodup (mDelete m k) :=
  List.Nodup.sublist (keys_mDelete_sublist m k) hnd

theorem not_mem_keys_mDelete (m : List (String × α)) (k : String)
    (hnd : keysNodup m) : k ∉ (mDelete m k).map Prod.fst := by
  induction m with
  | nil => simp [mDelete]
  | cons hd tl ih =>
      obtain ⟨k', v'⟩ := hd
      simp only [keysNodup, List.map_cons, List.nodup_cons] at hnd
      by_cases h : k' = k
      · subst h; simpa [mDelete] using hnd.1
      · have h' : ¬k = k' := fun hh => h hh.symm
        simp only [mDelete, if_neg h, List.map_cons, List.mem_cons, not_or]
        exact ⟨h', ih hnd.2⟩

theorem mGet_eq_none_of_not_mem_keys (m : List (String × α)) (k : String)
    (h : k ∉ m.map Prod.fst) : mGet m k = none := by
  induction m with
  | nil => simp [mGet]
  | cons hd tl ih =>
      obtain ⟨k', v'⟩ := hd
      simp only [List.map_cons, List.mem_cons, not_or] at h
      have h' : ¬k' = k := fun hh => h.1 hh.symm
      simp [mGet, h', ih h.2]

theorem mGet_mDelete_self (m : List (String × α)) (k : String)
    (hnd : keysNodup m) : mGet (mDelete m k) k = none :=
  mGet_eq_none_of_not_mem_keys _ _ (not_mem_keys_mDelete m k hnd)

/-- With unique keys, the number of entries for any key is at most one:
the "at most one Pending Call per outstanding id" invariant of a JS `Map`. -/
theorem countKey_le_one (m : List (String × α)) (k : String)
    (hnd : keysNodup m) : (m.map Prod.fst).count k ≤ 1 :=
  List.nodup_iff_count_le_one.mp hnd k

/-! ### Wire messages, events and observable effects -/

/-- Wire message (the Envelope): covers `Message` / `RequestMessage` /
`ResponseMessage` of src/types.ts and `RPCCallMessage` / `RPCResponseMessage`
of src/types-rpc.ts.  Fields that a given kind does not carry stay at their
defaults (absent = `none` / `undef`). -/
structure Msg where
  type : String
  id : Option String := none
  payload : JSValue := JSValue.undef
  result : JSValue := JSValue.undef
  method : String := ""
  args : List JSValue := []
  success : Option Bool := none
  error : Option String := none

/-- An inbound browser `message` event as the listeners see it: its `origin`,
whether `event.source` is the expected peer window, and its `data`. -/
structure MessageEvent where
  origin : String
  sourceIsPeer : Bool
  data : Msg

/-- Observable actions of the engine.  `settleResolve` / `settleReject` are
calls to the stored `resolve` / `reject` of the promise identified by the call
id; `setTimer` / `clearTimer` are `setTimeout` / `clearTimeout` on the timer of
that call; `post` is a successful `postMessage`; `onMessageCb` / `onErrorCb` /
`onMessageData` are invocations of the configured user callbacks. -/
inductive Effect where
  | setTimer (id : String) (ms : Nat)
  | clearTimer (id : String)
  | settleResolve (id : String) (v : JSValue)
  | settleReject (id : String) (e : JSError)
  | post (m : Msg)
  | onMessageCb (v : JSValue)
  | onMessageData (m : Msg)
  | onErrorCb (e : JSError)
  | removeListener

/-- What the engine can observe of a user request/method handler invocation:
a (sync or awaited) return value, a thrown/rejected `Error` carrying a
message, or a thrown non-`Error` value. -/
inductive HandlerOutcome where
  | ok (v : JSValue)
  | errObj (message : String)
  | errRaw

/-! ### Message Communicator (src/parent.ts `ParentCommunicator` and
src/child.ts `ChildCommunicator`; the two classes are line-for-line identical
in everything modelled here) -/

/-- State of a Communicator instance.  `ctorTimeout` is `this.options.timeout`
after the constructor merge `{ timeout: 5000, debug: false, ...options }`;
`listenerActive` is `messageHandler !== null` (the listener is registered). -/
structure CommState where
  targetOrigin : String
  ctorTimeout : Nat
  hasOnMessage : Bool
  pending : List (String × Nat)
  listenerActive : Bool

/-- Constructor: `targetOrigin = options.targetOrigin || '*'`, options merge,
empty pending table, listener installed. -/
def mkCommState (targetOriginOpt : Option String) (timeoutOpt : Option Nat)
    (hasOnMessage : Bool) : CommState :=
  { targetOrigin := jsOrStr targetOriginOpt "*"
    ctorTimeout := timeoutOpt.getD 5000
    hasOnMessage := hasOnMessage
    pending := []
    listenerActive := true }

/-- The rejection used by the request timeout callback: `new Error('Request timeout')`. -/
def commTimeoutErr : JSError := { message := "Request timeout" }

/-- The rejection used by `destroy()`: `new Error('Communicator destroyed')`. -/
def commDestroyedErr : JSError := { message := "Communicator destroyed" }

/-- The rejection built from a failure response:
`new Error(response.error || 'Request failed')`. -/
def commPeerErr (e : Option String) : JSError := { message := jsOrStr e "Request failed" }

/-- Private `postMessage` helper: a synchronous throw of the raw send is
caught and routed to `handleError`, which invokes `options.onError`.  The
environment's choice of whether the send throws is the `sendErr` argument. -/
def commPost (m : Msg) (sendErr : Option JSError) : List Effect :=
  match sendErr with
  | none => [Effect.post m]
  | some e => [Effect.onErrorCb e]

/-- The timer duration of `request`:
`timeout || this.options.timeout || 5000`. -/
def commEffectiveTimeout (s : CommState) (timeoutArg : Option Nat) : Nat :=
  jsOrNat timeoutArg (jsOrNat (some s.ctorTimeout) 5000)

/-- `request(payload, timeout?)`: allocate the (environment-chosen) id, start
the timer, store the pending entry, then post the request envelope. -/
def commRequest (s : CommState) (id : String) (payload : JSValue)
    (timeoutArg : Option Nat) (sendErr : Option JSError) :
    CommState × List Effect :=
  let timeoutMs := commEffectiveTimeout s timeoutArg
  let reqMsg : Msg := { type := "request", id := some id, payload := payload }
  ({ s with pending := mSet s.pending id timeoutMs },
    Effect.setTimer id timeoutMs :: commPost reqMsg sendErr)

/-- The body of the timeout callback scheduled by `request`: delete the entry,
reject with the timeout error. -/
def commTimeoutFire (s : CommState) (id : String) : CommState × List Effect :=
  ({ s with pending := mDelete s.pending id },
    [Effect.settleReject id commTimeoutErr])

/-- `handleResponse`: look up the pending entry by `response.id`; absent ⇒
no-op; otherwise clear the timer, remove the entry and settle the promise
(the `success` flag is tested for truthiness). -/
def commHandleResponse (s : CommState) (m : Msg) : CommState × List Effect :=
  match m.id with
  | none => (s, [])
  | some i =>
      match mGet s.pending i with
      | none => (s, [])
      | some _ =>
          ({ s with pending := mDelete s.pending i },
            Effect.clearTimer i ::
              (if m.success = some true then [Effect.settleResolve i m.payload]
               else [Effect.settleReject i (commPeerErr m.error)]))

/-- `sendResponse`: build the response envelope and post it. -/
def commSendResponse (id : Option String) (success : Bool) (payload : JSValue)
    (error : Option String) (sendErr : Option JSError) : List Effect :=
  commPost { type := "response", id := id, payload := payload,
             success := some success, error := error } sendErr

/-- `handleRequest`: with no configured `onRequest`, auto-fail; otherwise the
awaited handler outcome decides between a success response and a failure
response carrying `error.message` (or the generic fallback for a non-`Error`
throw). -/
def commHandleRequest (m : Msg) (onReq : Option HandlerOutcome)
    (sendErr : Option JSError) : List Effect :=
  match onReq with
  | none =>
      commSendResponse m.id false JSValue.undef
        (some "No request handler configured") sendErr
  | some (HandlerOutcome.ok v) => commSendResponse m.id true v none sendErr
  | some (HandlerOutcome.errObj msg) =>
      commSendResponse m.id false JSValue.undef (some msg) sendErr
  | some HandlerOutcome.errRaw =>
      commSendResponse m.id false JSValue.undef (some "Unknown error") sendErr

/-- `handleMessage`: branch on `data.type`; anything that is neither a
response nor a request goes to the `onMessage` callback (when configured). -/
def commHandleMessage (s : CommState) (m : Msg) (onReq : Option HandlerOutcome)
    (sendErr : Option JSError) : CommState × List Effect :=
  if m.type = "response" then commHandleResponse s m
  else if m.type = "request" then (s, commHandleRequest m onReq sendErr)
  else (s, if s.hasOnMessage then [Effect.onMessageCb m.payload] else [])

/-- The installed window listener: no-op once the listener is removed; then
the origin gate (`targetOrigin !== '*' && event.origin !== targetOrigin`),
then the source gate, then dispatch. -/
def commDeliver (s : CommState) (ev : MessageEvent) (onReq : Option HandlerOutcome)
    (sendErr : Option JSError) : CommState × List Effect :=
  if ¬s.listenerActive then (s, [])
  else if s.targetOrigin ≠ "*" ∧ ev.origin ≠ s.targetOrigin then (s, [])
  else if ¬ev.sourceIsPeer then (s, [])
  else commHandleMessage s ev.data onReq sendErr

/-- `destroy()`: remove the listener (if still installed), then for every
pending entry clear its timer and reject its promise with the destroyed
error, and clear the table. -/
def commDestroy (s : CommState) : CommState × List Effect :=
  ({ s with pending := [], listenerActive := false },
    (if s.listenerActive then [Effect.removeListener] else []) ++
      s.pending.flatMap (fun p =>
        [Effect.clearTimer p.1, Effect.settleReject p.1 commDestroyedErr]))

/-! ### RPC Engine (src/rpc.ts `ParentRPC` and `ChildRPC`; the two classes are
line-for-line identical in everything modelled here) -/

/-- Timeout rejection: `new RPCError('RPC call timeout', 'TIMEOUT')`. -/
def rpcTimeoutErr : JSError := { message := "RPC call timeout", code := some "TIMEOUT" }

/-- Abort rejection: `new RPCError('RPC call aborted', 'ABORTED')`. -/
def rpcAbortErr : JSError := { message := "RPC call aborted", code := some "ABORTED" }

/-- `destroy()` rejection: `new RPCError('RPC destroyed')` (no code). -/
def rpcDestroyedErr : JSError := { message := "RPC destroyed" }

/-- Send-failure rejection thrown in the promise executor:
`new RPCError('Failed to send RPC call: ' + error.message, 'SEND_ERROR')`. -/
def rpcSendFailErr (e : JSError) : JSError :=
  { message := "Failed to send RPC call: " ++ e.message, code := some "SEND_ERROR" }

/-- Rejection built from a failure rpc-response:
`new RPCError(response.error || 'RPC call failed')` (no code). -/
def rpcPeerErr (e : Option String) : JSError := { message := jsOrStr e "RPC call failed" }

/-- State of an RPC instance.  `ctorTimeout` is `options.timeout` as passed to
the constructor; note that src/rpc.ts stores the options nowhere and
`callWithOptions` never consults it.  Handlers are identified by opaque
tokens. -/
structure RPCState where
  targetOrigin : String
  ctorTimeout : Option Nat
  hasOnMessage : Bool
  handlers : List (String × Nat)
  pending : List (String × Nat)
  listenerActive : Bool

/-- Constructor: `targetOrigin = options.targetOrigin || '*'`, fresh maps,
listener installed. -/
def mkRPCState (targetOriginOpt : Option String) (ctorTimeout : Option Nat)
    (hasOnMessage : Bool) : RPCState :=
  { targetOrigin := jsOrStr targetOriginOpt "*"
    ctorTimeout := ctorTimeout
    hasOnMessage := hasOnMessage
    handlers := []
    pending := []
    listenerActive := true }

/-- The timer duration of `callWithOptions`: `options.timeout || 5000`
(the per-call options only; the constructor options are not consulted). -/
def rpcEffectiveTimeout (perCallTimeout : Option Nat) : Nat :=
  jsOrNat perCallTimeout 5000

/-- `callWithOptions(method, options, ...args)`: timer for
`options.timeout || 5000` ms, pending entry stored, envelope posted; a
synchronous `postMessage` throw is rethrown as a SEND_ERROR `RPCError` inside
the promise executor, which rejects the returned promise — without clearing
the timer or removing the table entry, and without touching any `onError`. -/
def rpcCallWithOptions (s : RPCState) (id : String) (method : String)
    (args : List JSValue) (perCallTimeout : Option Nat)
    (sendErr : Option JSError) : RPCState × List Effect :=
  let timeoutMs := rpcEffectiveTimeout perCallTimeout
  let callMsg : Msg := { type := "rpc-call", id := some id, method := method, args := args }
  ({ s with pending := mSet s.pending id timeoutMs },
    Effect.setTimer id timeoutMs ::
      (match sendErr with
       | none => [Effect.post callMsg]
       | some e => [Effect.settleReject id (rpcSendFailErr e)]))

/-- The body of the timeout callback scheduled by `callWithOptions`. -/
def rpcTimeoutFire (s : RPCState) (id : String) : RPCState × List Effect :=
  ({ s with pending := mDelete s.pending id },
    [Effect.settleReject id rpcTimeoutErr])

/-- The body of the `abort` listener registered when `options.signal` is
supplied: clear the timer, remove the entry, reject with the abort error. -/
def rpcAbortFire (s : RPCState) (id : String) : RPCState × List Effect :=
  ({ s with pending := mDelete s.pending id },
    [Effect.clearTimer id, Effect.settleReject id rpcAbortErr])

/-- `handleResponse`: look up `pendingCalls` by `response.id`; absent ⇒ no-op;
otherwise clear the timer, remove the entry and settle. -/
def rpcHandleResponse (s : RPCState) (m : Msg) : RPCState × List Effect :=
  match m.id with
  | none => (s, [])
  | some i =>
      match mGet s.pending i with
      | none => (s, [])
      | some _ =>
          ({ s with pending := mDelete s.pending i },
            Effect.clearTimer i ::
              (if m.success = some true then [Effect.settleResolve i m.result]
               else [Effect.settleReject i (rpcPeerErr m.error)]))

/-- `register(method, handler)`: last registration for a name wins. -/
def rpcRegister (s : RPCState) (method : String) (tok : Nat) : RPCState :=
  { s with handlers := mSet s.handlers method tok }

/-- `unregister(method)`. -/
def rpcUnregister (s : RPCState) (method : String) : RPCState :=
  { s with handlers := mDelete s.handlers method }

/-- `sendResponse`: build the rpc-response envelope and post it; a throwing
send here is only logged (`console.error`), producing no modelled effect. -/
def rpcSendResponse (id : Option String) (success : Bool) (result : JSValue)
    (error : Option String) (sendErr : Option JSError) : List Effect :=
  match sendErr with
  | none => [Effect.post { type := "rpc-response", id := id, result := result,
                           success := some success, error := error }]
  | some _ => []

/-- `handleCall`: dispatch by method name; unknown methods produce a
`Method not found` failure response; a throwing handler produces a failure
response carrying its message (or the generic fallback). -/
def rpcHandleCall (s : RPCState) (m : Msg) (outcome : HandlerOutcome)
    (sendErr : Option JSError) : List Effect :=
  match mGet s.handlers m.method with
  | none =>
      rpcSendResponse m.id false JSValue.undef
        (some ("Method not found: " ++ m.method)) sendErr
  | some _ =>
      match outcome with
      | HandlerOutcome.ok v => rpcSendResponse m.id true v none sendErr
      | HandlerOutcome.errObj msg =>
          rpcSendResponse m.id false JSValue.undef (some msg) sendErr
      | HandlerOutcome.errRaw =>
          rpcSendResponse m.id false JSValue.undef (some "Unknown error") sendErr

/-- `handleMessage`: only the two rpc kinds are dispatched. -/
def rpcHandleMessage (s : RPCState) (m : Msg) (outcome : HandlerOutcome)
    (sendErr : Option JSError) : RPCState × List Effect :=
  if m.type = "rpc-response" then rpcHandleResponse s m
  else if m.type = "rpc-call" then (s, rpcHandleCall s m outcome sendErr)
  else (s, [])

/-- The installed window listener of src/rpc.ts: origin gate, source gate,
`handleMessage(event.data)`, then `options.onMessage?.(event.data)`. -/
def rpcDeliver (s : RPCState) (ev : MessageEvent) (outcome : HandlerOutcome)
    (sendErr : Option JSError) : RPCState × List Effect :=
  if ¬s.listenerActive then (s, [])
  else if s.targetOrigin ≠ "*" ∧ ev.origin ≠ s.targetOrigin then (s, [])
  else if ¬ev.sourceIsPeer then (s, [])
  else
    let step := rpcHandleMessage s ev.data outcome sendErr
    (step.1, step.2 ++ (if s.hasOnMessage then [Effect.onMessageData ev.data] else []))

/-- `destroy()`: remove the listener, clear the handler registry, clear every
pending timer and reject every pending promise with the destroyed error,
empty the table. -/
def rpcDestroy (s : RPCState) : RPCState × List Effect :=
  ({ s with handlers := [], pending := [], listenerActive := false },
    Effect.removeListener ::
      s.pending.flatMap (fun p =>
        [Effect.clearTimer p.1, Effect.settleReject p.1 rpcDestroyedErr]))

/-! ### Dynamic Function Registry (src/devtools.ts `ChildDevTools`) -/

/-- A property of the shared namespace (the `window` object): either a
function — identified by an opaque token, since the registry only stores and
forwards it — or any non-function value. -/
inductive WinValue where
  | fnVal (tok : Nat)
  | other

/-- The default `functionPattern` `/^__/` as a predicate on names: the name
begins with two underscores. -/
def defaultPat (name : String) : Bool :=
  match name.toList with
  | '_' :: '_' :: _ => true
  | _ => false

/-- `ChildDevTools` state: the merged `matchesPattern` predicate (a `RegExp`
and a predicate are both used only through a boolean name test), the shared
namespace, and the `exposedFunctions` lookup table. -/
structure DevState where
  pat : String → Bool
  window : List (String × WinValue)
  exposed : List (String × Nat)

/-- `scanWindowFunctions`: keep the window properties that are functions and
whose name matches the pattern. -/
def scanWindow (pat : String → Bool) : List (String × WinValue) → List (String × Nat)
  | [] => []
  | (k, WinValue.fnVal tok) :: rest =>
      if pat k then (k, tok) :: scanWindow pat rest else scanWindow pat rest
  | (_, WinValue.other) :: rest => scanWindow pat rest

/-- `refreshFunctions`: replace `exposedFunctions` with a fresh scan. -/
def devRefresh (s : DevState) : DevState :=
  { s with exposed := scanWindow s.pat s.window }

/-- `expose(name, fn)`: put the function in `exposedFunctions` and install it
on the window (`window[name] = fn`); a non-matching name only triggers a
debug warning. -/
def devExpose (s : DevState) (name : String) (tok : Nat) : DevState :=
  { s with exposed := mSet s.exposed name tok
           window := mSet s.window name (WinValue.fnVal tok) }

/-- `callFunction(name, args)` up to its lookup/dispatch: a missing entry
throws `Function not found: <name>`; a present entry is invoked (the
invocation itself is the user's function). -/
def devCall (s : DevState) (name : String) : Except String Nat :=
  match mGet s.exposed name with
  | none => Except.error ("Function not found: " ++ name)
  | some tok => Except.ok tok

/-! ### Parameter-metadata validator (src/metadata-validator.ts)

`validateParamMeta` is `ParamMetaSchema.safeParse(param).success` for the
discriminated union keyed on `type`; we embed the acceptance condition of
each zod schema branch over JSON values. -/

def isStrV : JSValue → Bool
  | JSValue.str _ => true
  | _ => false

def isBoolV : JSValue → Bool
  | JSValue.boolV _ => true
  | _ => false

def isNumV : JSValue → Bool
  | JSValue.num _ => true
  | _ => false

/-- `z.number().positive()`. -/
def isPosNumV : JSValue → Bool
  | JSValue.num n => decide (0 < n)
  | _ => false

/-- An optional zod object field: the key may be absent (parses as
`undefined`) or explicitly `undefined`; an actual value must satisfy `p`. -/
def optField (o : List (String × JSValue)) (k : String) (p : JSValue → Bool) : Bool :=
  match mGet o k with
  | none => true
  | some JSValue.undef => true
  | some v => p v

/-- `ParamMetaBaseSchema`: required nonempty `name` string, optional
`description` string, optional `required` boolean, `default` unconstrained. -/
def baseCheck (o : List (String × JSValue)) : Bool :=
  (match mGet o "name" with
   | some (JSValue.str s) => decide (1 ≤ s.length)
   | _ => false) &&
  optField o "description" isStrV &&
  optField o "required" isBoolV

/-- `NumberParamMetaSchema`: optional numeric `min`/`max`, optional positive
`step`, refined by `min ≤ max` when both are given. -/
def numberCheck (o : List (String × JSValue)) : Bool :=
  baseCheck o && optField o "min" isNumV && optField o "max" isNumV &&
  optField o "step" isPosNumV &&
  (match mGet o "min", mGet o "max" with
   | some (JSValue.num mn), some (JSValue.num mx) => decide (mn ≤ mx)
   | _, _ => true)

/-- `RangeParamMetaSchema`: required numeric `min` and `max`, optional
positive `step`, refined by `min < max`. -/
def rangeCheck (o : List (String × JSValue)) : Bool :=
  baseCheck o &&
  (match mGet o "min", mGet o "max" with
   | some (JSValue.num mn), some (JSValue.num mx) => decide (mn < mx)
   | _, _ => false) &&
  optField o "step" isPosNumV

/-- `StringParamMetaSchema`. -/
def stringCheck (o : List (String × JSValue)) : Bool :=
  baseCheck o && optField o "pattern" isStrV

/-- `BooleanParamMetaSchema`. -/
def booleanCheck (o : List (String × JSValue)) : Bool :=
  baseCheck o

def isHexDigitChar (c : Char) : Bool :=
  c.isDigit || (decide ('a' ≤ c) && decide (c ≤ 'f')) ||
    (decide ('A' ≤ c) && decide (c ≤ 'F'))

/-- The `/^#[0-9A-Fa-f]{6}$/` hex-color test. -/
def isHexColor (s : String) : Bool :=
  match s.toList with
  | '#' :: rest => decide (rest.length = 6) && rest.all isHexDigitChar
  | _ => false

/-- `ColorParamMetaSchema`: `default`, when an actual string, must be a hex
color. -/
def colorCheck (o : List (String × JSValue)) : Bool :=
  baseCheck o &&
  optField o "default" (fun v =>
    match v with
    | JSValue.str s => isHexColor s
    | _ => false)

/-- One entry of the `{label, value}` options form: `label` is a required
string, `value` is `z.any()`. -/
def isLabelValue : JSValue → Bool
  | JSValue.obj fs =>
      (match mGet fs "label" with
       | some (JSValue.str _) => true
       | _ => false)
  | _ => false

/-- `SelectParamMetaSchema.options`: a nonempty array of strings, of numbers,
or of `{label, value}` objects. -/
def selectOptionsOk : JSValue → Bool
  | JSValue.arr xs =>
      decide (1 ≤ xs.length) &&
        (xs.all isStrV || xs.all isNumV || xs.all isLabelValue)
  | _ => false

/-- `SelectParamMetaSchema`: `options` is required. -/
def selectCheck (o : List (String × JSValue)) : Bool :=
  baseCheck o &&
  (match mGet o "options" with
   | some v => selectOptionsOk v
   | none => false)

/-- `/^\d{4}-\d{2}-\d{2}$/`. -/
def dateFmt (s : String) : Bool :=
  match s.toList with
  | [a, b, c, d, '-', e, f, '-', g, h] =>
      [a, b, c, d, e, f, g, h].all Char.isDigit
  | _ => false

/-- `/^\d{2}:\d{2}$/`. -/
def timeFmt (s : String) : Bool :=
  match s.toList with
  | [a, b, ':', c, d] => [a, b, c, d].all Char.isDigit
  | _ => false

/-- `DateParamMetaSchema`: optional ISO-date `min`/`max`. -/
def dateCheck (o : List (String × JSValue)) : Bool :=
  baseCheck o &&
  optField o "min" (fun v =>
    match v with
    | JSValue.str s => dateFmt s
    | _ => false) &&
  optField o "max" (fun v =>
    match v with
    | JSValue.str s => dateFmt s
    | _ => false)

/-- `TimeParamMetaSchema`: optional ISO-time `min`/`max`. -/
def timeCheck (o : List (String × JSValue)) : Bool :=
  baseCheck o &&
  optField o "min" (fun v =>
    match v with
    | JSValue.str s => timeFmt s
    | _ => false) &&
  optField o "max" (fun v =>
    match v with
    | JSValue.str s => timeFmt s
    | _ => false)

/-- `ParamTypeSchema` member names. -/
def paramTypeNames : List String :=
  ["string", "number", "boolean", "select", "array", "color", "time", "date", "range"]

/-- `ArrayParamMetaSchema`: optional `itemType` drawn from the type enum. -/
def arrayCheck (o : List (String × JSValue)) : Bool :=
  baseCheck o &&
  optField o "itemType" (fun v =>
    match v with
    | JSValue.str t => paramTypeNames.contains t
    | _ => false)

/-- `validateParamMeta(param).success`: dispatch the discriminated union on
the `type` field (absent/`undefined` selects the untyped base branch; a
non-member discriminator fails). -/
def validateParamMeta : JSValue → Bool
  | JSValue.obj o =>
      (match mGet o "type" with
       | none => baseCheck o
       | some JSValue.undef => baseCheck o
       | some (JSValue.str t) =>
           if t = "number" then numberCheck o
           else if t = "select" then selectCheck o
           else if t = "string" then stringCheck o
           else if t = "boolean" then booleanCheck o
           else if t = "color" then colorCheck o
           else if t = "range" then rangeCheck o
           else if t = "date" then dateCheck o
           else if t = "time" then timeCheck o
           else if t = "array" then arrayCheck o
           else false
       | some _ => false)
  | _ => false

/-! ### Helper predicates and lemmas -/

/-- An effect that settles a promise (either way). -/
def isSettle : Effect → Bool
  | Effect.settleResolve _ _ => true
  | Effect.settleReject _ _ => true
  | _ => false

/-- A `clearTimeout` effect. -/
def isClear : Effect → Bool
  | Effect.clearTimer _ => true
  | _ => false

theorem mGet_scanWindow_of_pat_false (pat : String → Bool)
    (w : List (String × WinValue)) (name : String) (h : pat name = false) :
    mGet (scanWindow pat w) name = none := by
  induction w with
  | nil => simp [scanWindow, mGet]
  | cons hd tl ih =>
      obtain ⟨k, v⟩ := hd
      cases v with
      | fnVal tok =>
          cases hk : pat k with
          | false => simp [scanWindow, hk, ih]
          | true =>
              by_cases hkn : k = name
              · subst hkn; rw [hk] at h; cases h
              · simp [scanWindow, hk, mGet, hkn, ih]
      | other => simp [scanWindow, ih]

theorem mGet_scanWindow_mSet_self (pat : String → Bool)
    (w : List (String × WinValue)) (name : String) (tok : Nat)
    (h : pat name = true) :
    mGet (scanWindow pat (mSet w name (WinValue.fnVal tok))) name = some tok := by
  induction w with
  | nil => simp [mSet, scanWindow, h, mGet]
  | cons hd tl ih =>
      obtain ⟨k, v⟩ := hd
      by_cases hk : k = name
      · subst hk; simp [mSet, scanWindow, h, mGet]
      · cases v with
        | fnVal t₂ =>
            cases hpk : pat k with
            | true => simp [mSet, hk, scanWindow, hpk, mGet, ih]
            | false => simp [mSet, hk, scanWindow, hpk, ih]
        | other => simp [mSet, hk, scanWindow, ih]

/-! ### Claims -/

/-- **C1.**  For every Correlator (`pendingRequests` / `pendingCalls` map) and
every id, at most one pending entry exists per outstanding id (the `Map`
holds unique keys), and settlement happens exactly once: delivering a
response for an id absent from the table — already answered, already timed
out, or the instance destroyed — is a no-op: the (total) handler neither
settles any promise nor changes the table; and once a response settles an id,
redelivering a response for that id is such a no-op.  Proved for both the
Communicator (`handleResponse`, src/parent.ts = src/child.ts) and the RPC
engine (`handleResponse`, src/rpc.ts). -/
theorem response_absent_id_noop_settle_once
    (s : CommState) (r : RPCState) (m : Msg) (i : String) (d d' : Nat)
    (hid : m.id = some i)
    (hndc : keysNodup s.pending) (hndr : keysNodup r.pending) :
    ((s.pending.map Prod.fst).count i ≤ 1 ∧
     (r.pending.map Prod.fst).count i ≤ 1) ∧
    (mGet s.pending i = none → commHandleResponse s m = (s, [])) ∧
    (mGet r.pending i = none → rpcHandleResponse r m = (r, [])) ∧
    (mGet s.pending i = some d →
      commHandleResponse (commHandleResponse s m).1 m
        = ((commHandleResponse s m).1, [])) ∧
    (mGet r.pending i = some d' →
      rpcHandleResponse (rpcHandleResponse r m).1 m
        = ((rpcHandleResponse r m).1, [])) := by
  refine ⟨⟨countKey_le_one _ _ hndc, countKey_le_one _ _ hndr⟩, ?_, ?_, ?_, ?_⟩
  · intro hnone; simp [commHandleResponse, hid, hnone]
  · intro hnone; simp [rpcHandleResponse, hid, hnone]
  · intro hp
    have hstep : commHandleResponse s m
        = ({ s with pending := mDelete s.pending i },
           Effect.clearTimer i ::
             (if m.success = some true then [Effect.settleResolve i m.payload]
              else [Effect.settleReject i (commPeerErr m.error)])) := by
      simp [commHandleResponse, hid, hp]
    have h2 : mGet (mDelete s.pending i) i = none := mGet_mDelete_self _ _ hndc
    rw [hstep]
    simp [commHandleResponse, hid, h2]
  · intro hp
    have hstep : rpcHandleResponse r m
        = ({ r with pending := mDelete r.pending i },
           Effect.clearTimer i ::
             (if m.success = some true then [Effect.settleResolve i m.result]
              else [Effect.settleReject i (rpcPeerErr m.error)])) := by
      simp [rpcHandleResponse, hid, hp]
    have h2 : mGet (mDelete r.pending i) i = none := mGet_mDelete_self _ _ hndr
    rw [hstep]
    simp [rpcHandleResponse, hid, h2]

theorem response_absent_id_noop_settle_once_witness :
    (((([("x", 5000)] : List (String × Nat)).map Prod.fst).count "x" ≤ 1 ∧
      (([("x", 7)] : List (String × Nat)).map Prod.fst).count "x" ≤ 1) ∧
     (mGet ([("x", 5000)] : List (String × Nat)) "x" = none →
        commHandleResponse ⟨"*", 5000, false, [("x", 5000)], true⟩
          ⟨"response", some "x", JSValue.undef, JSValue.undef, "", [], some true, none⟩
          = (⟨"*", 5000, false, [("x", 5000)], true⟩, [])) ∧
     (mGet ([("x", 7)] : List (String × Nat)) "x" = none →
        rpcHandleResponse ⟨"*", none, false, [], [("x", 7)], true⟩
          ⟨"response", some "x", JSValue.undef, JSValue.undef, "", [], some true, none⟩
          = (⟨"*", none, false, [], [("x", 7)], true⟩, [])) ∧
     (mGet ([("x", 5000)] : List (String × Nat)) "x" = some 5000 →
        commHandleResponse
          (commHandleResponse ⟨"*", 5000, false, [("x", 5000)], true⟩
            ⟨"response", some "x", JSValue.undef, JSValue.undef, "", [], some true, none⟩).1
          ⟨"response", some "x", JSValue.undef, JSValue.undef, "", [], some true, none⟩
          = ((commHandleResponse ⟨"*", 5000, false, [("x", 5000)], true⟩
            ⟨"response", some "x", JSValue.undef, JSValue.undef, "", [], some true, none⟩).1, [])) ∧
     (mGet ([("x", 7)] : List (String × Nat)) "x" = some 7 →
        rpcHandleResponse
          (rpcHandleResponse ⟨"*", none, false, [], [("x", 7)], true⟩
            ⟨"response", some "x", JSValue.undef, JSValue.undef, "", [], some true, none⟩).1
          ⟨"response", some "x", JSValue.undef, JSValue.undef, "", [], some true, none⟩
          = ((rpcHandleResponse ⟨"*", none, false, [], [("x", 7)], true⟩
            ⟨"response", some "x", JSValue.undef, JSValue.undef, "", [], some true, none⟩).1, []))) :=
  response_absent_id_noop_settle_once
    ⟨"*", 5000, false, [("x", 5000)], true⟩
    ⟨"*", none, false, [], [("x", 7)], true⟩
    ⟨"response", some "x", JSValue.undef, JSValue.undef, "", [], some true, none⟩
    "x" 5000 7 rfl (by decide) (by decide)

/-- **C5.**  An inbound message whose origin differs from the configured
expected origin (`targetOrigin` set to something other than `"*"`) never
reaches `onMessage`, `onRequest`, any registered RPC handler, or the
pending-call matching logic: the listener returns before any dispatch, for
both Communicator and RPC instances (parent and child sides are the same
embedded listener), leaving the state unchanged and producing no effect. -/
theorem origin_mismatch_never_dispatches
    (s : CommState) (r : RPCState) (ev : MessageEvent)
    (onReq : Option HandlerOutcome) (outcome : HandlerOutcome)
    (se se' : Option JSError)
    (hc : s.targetOrigin ≠ "*") (hco : ev.origin ≠ s.targetOrigin)
    (hr : r.targetOrigin ≠ "*") (hro : ev.origin ≠ r.targetOrigin) :
    commDeliver s ev onReq se = (s, []) ∧
    rpcDeliver r ev outcome se' = (r, []) := by
  constructor
  · unfold commDeliver
    rcases Bool.eq_false_or_eq_true s.listenerActive with hl | hl <;>
      simp [hl, hc, hco]
  · unfold rpcDeliver
    rcases Bool.eq_false_or_eq_true r.listenerActive with hl | hl <;>
      simp [hl, hr, hro]

theorem origin_mismatch_never_dispatches_witness :
    commDeliver ⟨"https://app.example", 5000, true, [("x", 5000)], true⟩
      ⟨"https://evil.example", true,
        ⟨"response", some "x", JSValue.undef, JSValue.undef, "", [], some true, none⟩⟩
      (some (HandlerOutcome.ok (JSValue.str "r"))) none
      = (⟨"https://app.example", 5000, true, [("x", 5000)], true⟩, []) ∧
    rpcDeliver ⟨"https://app.example", none, true, [("m", 0)], [("x", 5000)], true⟩
      ⟨"https://evil.example", true,
        ⟨"response", some "x", JSValue.undef, JSValue.undef, "", [], some true, none⟩⟩
      (HandlerOutcome.ok (JSValue.str "r")) none
      = (⟨"https://app.example", none, true, [("m", 0)], [("x", 5000)], true⟩, []) :=
  origin_mismatch_never_dispatches
    ⟨"https://app.example", 5000, true, [("x", 5000)], true⟩
    ⟨"https://app.example", none, true, [("m", 0)], [("x", 5000)], true⟩
    ⟨"https://evil.example", true,
      ⟨"response", some "x", JSValue.undef, JSValue.undef, "", [], some true, none⟩⟩
    (some (HandlerOutcome.ok (JSValue.str "r"))) (HandlerOutcome.ok (JSValue.str "r"))
    none none (by decide) (by decide) (by decide) (by decide)

theorem jsOrNat_some_of_ne_zero (n d : Nat) (h : n ≠ 0) : jsOrNat (some n) d = n := by
  cases n with
  | zero => exact absurd rfl h
  | succ k => rfl

/-- **C2.**  `destroy()` synchronously rejects every unresolved pending
call with the dedicated destroyed-kind error (a different error value than
the timeout / abort / send-failure rejections), clears every pending timer,
empties the pending table (and, for RPC, the handler registry), and removes
the message listener, so that any response envelope delivered afterwards has
no observable effect: the post-destroy listener produces no state change and
no effect.  Proved for the Communicator and the RPC engine. -/
theorem destroy_rejects_all_pending_and_silences (s : CommState) (r : RPCState) :
    ((commDestroy s).1.pending = [] ∧
     (∀ i d, (i, d) ∈ s.pending →
        Effect.clearTimer i ∈ (commDestroy s).2 ∧
        Effect.settleReject i commDestroyedErr ∈ (commDestroy s).2) ∧
     (∀ ev onReq se, commDeliver (commDestroy s).1 ev onReq se
        = ((commDestroy s).1, [])) ∧
     commDestroyedErr ≠ commTimeoutErr) ∧
    ((rpcDestroy r).1.pending = [] ∧ (rpcDestroy r).1.handlers = [] ∧
     (∀ i d, (i, d) ∈ r.pending →
        Effect.clearTimer i ∈ (rpcDestroy r).2 ∧
        Effect.settleReject i rpcDestroyedErr ∈ (rpcDestroy r).2) ∧
     (∀ ev outcome se, rpcDeliver (rpcDestroy r).1 ev outcome se
        = ((rpcDestroy r).1, [])) ∧
     rpcDestroyedErr ≠ rpcTimeoutErr ∧ rpcDestroyedErr ≠ rpcAbortErr ∧
     (∀ e, rpcDestroyedErr ≠ rpcSendFailErr e)) := by
  refine ⟨⟨by simp [commDestroy], ?_, ?_, by decide⟩,
          ⟨by simp [rpcDestroy], by simp [rpcDestroy], ?_, ?_,
           by decide, by decide, ?_⟩⟩
  · intro i d hm
    constructor <;>
    · simp only [commDestroy, List.mem_append, List.mem_flatMap]
      exact Or.inr ⟨(i, d), hm, by simp⟩
  · intro ev onReq se
    have hl : (commDestroy s).1.listenerActive = false := by simp [commDestroy]
    unfold commDeliver
    simp [hl]
  · intro i d hm
    constructor <;>
    · simp only [rpcDestroy, List.mem_cons, List.mem_flatMap]
      exact Or.inr ⟨(i, d), hm, by simp⟩
  · intro ev outcome se
    have hl : (rpcDestroy r).1.listenerActive = false := by simp [rpcDestroy]
    unfold rpcDeliver
    simp [hl]
  · intro e
    simp [rpcDestroyedErr, rpcSendFailErr]

theorem destroy_rejects_all_pending_and_silences_witness :
    (((commDestroy ⟨"*", 5000, true, [("a", 100), ("b", 200)], true⟩).1.pending = [] ∧
      (∀ i d, (i, d) ∈ ([("a", 100), ("b", 200)] : List (String × Nat)) →
         Effect.clearTimer i ∈ (commDestroy ⟨"*", 5000, true, [("a", 100), ("b", 200)], true⟩).2 ∧
         Effect.settleReject i commDestroyedErr
           ∈ (commDestroy ⟨"*", 5000, true, [("a", 100), ("b", 200)], true⟩).2) ∧
      (∀ ev onReq se,
         commDeliver (commDestroy ⟨"*", 5000, true, [("a", 100), ("b", 200)], true⟩).1 ev onReq se
           = ((commDestroy ⟨"*", 5000, true, [("a", 100), ("b", 200)], true⟩).1, [])) ∧
      commDestroyedErr ≠ commTimeoutErr) ∧
     ((rpcDestroy ⟨"*", none, true, [("m", 3)], [("a", 100)], true⟩).1.pending = [] ∧
      (rpcDestroy ⟨"*", none, true, [("m", 3)], [("a", 100)], true⟩).1.handlers = [] ∧
      (∀ i d, (i, d) ∈ ([("a", 100)] : List (String × Nat)) →
         Effect.clearTimer i ∈ (rpcDestroy ⟨"*", none, true, [("m", 3)], [("a", 100)], true⟩).2 ∧
         Effect.settleReject i rpcDestroyedErr
           ∈ (rpcDestroy ⟨"*", none, true, [("m", 3)], [("a", 100)], true⟩).2) ∧
      (∀ ev outcome se,
         rpcDeliver (rpcDestroy ⟨"*", none, true, [("m", 3)], [("a", 100)], true⟩).1 ev outcome se
           = ((rpcDestroy ⟨"*", none, true, [("m", 3)], [("a", 100)], true⟩).1, [])) ∧
      rpcDestroyedErr ≠ rpcTimeoutErr ∧ rpcDestroyedErr ≠ rpcAbortErr ∧
      (∀ e, rpcDestroyedErr ≠ rpcSendFailErr e))) :=
  destroy_rejects_all_pending_and_silences
    ⟨"*", 5000, true, [("a", 100), ("b", 200)], true⟩
    ⟨"*", none, true, [("m", 3)], [("a", 100)], true⟩

/-- **C3 (amended).**  When the underlying `postMessage` throws
synchronously: in `Communicator.request` the error is caught and routed to
`onError`, but the returned promise is *not* rejected then — no settle effect
is produced, the pending entry stays, and the promise is only rejected later
by the timeout (with the timeout error, whose code is not SEND_ERROR); in
`ParentRPC`/`ChildRPC` `callWithOptions` the returned promise *is* rejected
with a SEND_ERROR `RPCError` (the executor throw), but no `onError` callback
is involved. -/
theorem send_failure_behavior (s : CommState) (r : RPCState)
    (id : String) (payload : JSValue) (method : String) (args : List JSValue)
    (tArg : Option Nat) (e : JSError) :
    (commRequest s id payload tArg (some e)).2
      = [Effect.setTimer id (commEffectiveTimeout s tArg), Effect.onErrorCb e] ∧
    ((commRequest s id payload tArg (some e)).2.all (fun eff => !isSettle eff)) = true ∧
    mGet (commRequest s id payload tArg (some e)).1.pending id
      = some (commEffectiveTimeout s tArg) ∧
    (commTimeoutFire (commRequest s id payload tArg (some e)).1 id).2
      = [Effect.settleReject id commTimeoutErr] ∧
    commTimeoutErr.code ≠ some "SEND_ERROR" ∧
    (rpcCallWithOptions r id method args tArg (some e)).2
      = [Effect.setTimer id (rpcEffectiveTimeout tArg),
         Effect.settleReject id (rpcSendFailErr e)] ∧
    (rpcSendFailErr e).code = some "SEND_ERROR" ∧
    ((rpcCallWithOptions r id method args tArg (some e)).2.all
       (fun eff => match eff with | Effect.onErrorCb _ => false | _ => true)) = true := by
  refine ⟨rfl, ?_, ?_, rfl, by decide, rfl, rfl, ?_⟩
  · simp [commRequest, commPost, isSettle]
  · simp [commRequest, commPost, mGet_mSet_self]
  · simp [rpcCallWithOptions]

theorem send_failure_behavior_witness :
    ((commRequest ⟨"*", 5000, false, [], true⟩ "id1" (JSValue.str "ping") none
        (some ⟨"boom", none⟩)).2
      = [Effect.setTimer "id1" (commEffectiveTimeout ⟨"*", 5000, false, [], true⟩ none),
         Effect.onErrorCb ⟨"boom", none⟩] ∧
     ((commRequest ⟨"*", 5000, false, [], true⟩ "id1" (JSValue.str "ping") none
        (some ⟨"boom", none⟩)).2.all (fun eff => !isSettle eff)) = true ∧
     mGet (commRequest ⟨"*", 5000, false, [], true⟩ "id1" (JSValue.str "ping") none
        (some ⟨"boom", none⟩)).1.pending "id1"
      = some (commEffectiveTimeout ⟨"*", 5000, false, [], true⟩ none) ∧
     (commTimeoutFire (commRequest ⟨"*", 5000, false, [], true⟩ "id1" (JSValue.str "ping") none
        (some ⟨"boom", none⟩)).1 "id1").2
      = [Effect.settleReject "id1" commTimeoutErr] ∧
     commTimeoutErr.code ≠ some "SEND_ERROR" ∧
     (rpcCallWithOptions ⟨"*", none, false, [], [], true⟩ "id1" "getData" [] none
        (some ⟨"boom", none⟩)).2
      = [Effect.setTimer "id1" (rpcEffectiveTimeout none),
         Effect.settleReject "id1" (rpcSendFailErr ⟨"boom", none⟩)] ∧
     (rpcSendFailErr ⟨"boom", none⟩).code = some "SEND_ERROR" ∧
     ((rpcCallWithOptions ⟨"*", none, false, [], [], true⟩ "id1" "getData" [] none
        (some ⟨"boom", none⟩)).2.all
       (fun eff => match eff with | Effect.onErrorCb _ => false | _ => true)) = true) :=
  send_failure_behavior ⟨"*", 5000, false, [], true⟩ ⟨"*", none, false, [], [], true⟩
    "id1" (JSValue.str "ping") "getData" [] none ⟨"boom", none⟩

/-- **C3 counterexample.**  At the concrete input — a `ParentCommunicator`
with default options whose `postMessage` throws — `request` produces only the
timer and the `onError` routing: no settle effect at all, so the returned
promise does not reject with a SEND_ERROR-kind failure; it stays pending (and
the entry remains in the table until the timeout), refuting the claim. -/
theorem send_failure_comm_promise_not_rejected_cex :
    commRequest ⟨"*", 5000, false, [], true⟩ "id1" (JSValue.str "ping") none
        (some ⟨"boom", none⟩)
      = (⟨"*", 5000, false, [("id1", 5000)], true⟩,
         [Effect.setTimer "id1" 5000, Effect.onErrorCb ⟨"boom", none⟩]) ∧
    ((commRequest ⟨"*", 5000, false, [], true⟩ "id1" (JSValue.str "ping") none
        (some ⟨"boom", none⟩)).2.all (fun eff => !isSettle eff)) = true :=
  ⟨rfl, rfl⟩

/-- **C4 (amended).**  The pending-call timer default is 5000 ms and the
per-call value (when nonzero) wins in both engines; a constructor-time
`timeout` applies only to `Communicator.request` — `ParentRPC`/`ChildRPC`
`callWithOptions` never consults the constructor options and always uses
`per-call timeout || 5000`. -/
theorem timeout_default_and_overrides (s : CommState) (o : Option String)
    (ct : Option Nat) (hm : Bool) (id method : String) (args : List JSValue)
    (tArg : Option Nat) (se : Option JSError) (n c : Nat)
    (hn : n ≠ 0) (hc : c ≠ 0) :
    commEffectiveTimeout (mkCommState o none hm) none = 5000 ∧
    rpcEffectiveTimeout none = 5000 ∧
    commEffectiveTimeout s (some n) = n ∧
    rpcEffectiveTimeout (some n) = n ∧
    commEffectiveTimeout (mkCommState o (some c) hm) none = c ∧
    (rpcCallWithOptions (mkRPCState o ct hm) id method args tArg se).2.head?
      = some (Effect.setTimer id (rpcEffectiveTimeout tArg)) := by
  refine ⟨rfl, rfl, ?_, ?_, ?_, ?_⟩
  · exact jsOrNat_some_of_ne_zero n _ hn
  · exact jsOrNat_some_of_ne_zero n _ hn
  · exact jsOrNat_some_of_ne_zero c 5000 hc
  · cases se <;> rfl

theorem timeout_default_and_overrides_witness :
    (commEffectiveTimeout (mkCommState none none false) none = 5000 ∧
     rpcEffectiveTimeout none = 5000 ∧
     commEffectiveTimeout ⟨"*", 5000, false, [], true⟩ (some 250) = 250 ∧
     rpcEffectiveTimeout (some 250) = 250 ∧
     commEffectiveTimeout (mkCommState none (some 1000) false) none = 1000 ∧
     (rpcCallWithOptions (mkRPCState none (some 1000) false) "id1" "m" [] none none).2.head?
       = some (Effect.setTimer "id1" (rpcEffectiveTimeout none))) :=
  timeout_default_and_overrides ⟨"*", 5000, false, [], true⟩ none (some 1000)
    false "id1" "m" [] none none 250 1000 (by decide) (by decide)

/-- **C4 counterexample.**  At the concrete input — an RPC instance
constructed with `timeout: 1000` and a call giving no per-call override — the
timer is set for 5000 ms, not 1000 ms: the constructor-time timeout does not
apply to `ParentRPC`/`ChildRPC` `callWithOptions`, refuting the claim. -/
theorem ctor_timeout_ignored_by_rpc_cex :
    (rpcCallWithOptions (mkRPCState none (some 1000) false) "id1" "m" [] none none).2
      = [Effect.setTimer "id1" 5000,
         Effect.post ⟨"rpc-call", some "id1", JSValue.undef, JSValue.undef,
           "m", [], none, none⟩] ∧
    (1000 : Nat) ≠ 5000 :=
  ⟨rfl, by decide⟩

/-- **C6 (amended).**  Timers are cleared on the response-match path, on the
abort path, and on destroy (both engines).  But the RPC send-failure path —
`callWithOptions` rejecting with SEND_ERROR when `postMessage` throws — does
not clear the just-scheduled timeout and leaves the table entry in place, so
that timer later fires against the already-settled call's entry (its
callback then deletes the entry and issues a second, promise-level no-op
rejection). -/
theorem timer_clear_on_exit_paths (s : CommState) (r : RPCState) (m : Msg)
    (i id method : String) (d d' : Nat) (e : JSError)
    (args : List JSValue) (tArg : Option Nat)
    (hid : m.id = some i)
    (hpc : mGet s.pending i = some d) (hpr : mGet r.pending i = some d') :
    Effect.clearTimer i ∈ (commHandleResponse s m).2 ∧
    Effect.clearTimer i ∈ (rpcHandleResponse r m).2 ∧
    (rpcAbortFire r id).2
      = [Effect.clearTimer id, Effect.settleReject id rpcAbortErr] ∧
    (∀ j dj, (j, dj) ∈ s.pending → Effect.clearTimer j ∈ (commDestroy s).2) ∧
    (∀ j dj, (j, dj) ∈ r.pending → Effect.clearTimer j ∈ (rpcDestroy r).2) ∧
    (rpcCallWithOptions r id method args tArg (some e)).2
      = [Effect.setTimer id (rpcEffectiveTimeout tArg),
         Effect.settleReject id (rpcSendFailErr e)] ∧
    ((rpcCallWithOptions r id method args tArg (some e)).2.all
       (fun eff => !isClear eff)) = true ∧
    mGet (rpcCallWithOptions r id method args tArg (some e)).1.pending id
      = some (rpcEffectiveTimeout tArg) := by
  refine ⟨?_, ?_, rfl, ?_, ?_, rfl, ?_, ?_⟩
  · simp [commHandleResponse, hid, hpc]
  · simp [rpcHandleResponse, hid, hpr]
  · intro j dj hm
    simp only [commDestroy, List.mem_append, List.mem_flatMap]
    exact Or.inr ⟨(j, dj), hm, by simp⟩
  · intro j dj hm
    simp only [rpcDestroy, List.mem_cons, List.mem_flatMap]
    exact Or.inr ⟨(j, dj), hm, by simp⟩
  · simp [rpcCallWithOptions, isClear]
  · simp [rpcCallWithOptions, mGet_mSet_self]

theorem timer_clear_on_exit_paths_witness :
    (Effect.clearTimer "x"
       ∈ (commHandleResponse ⟨"*", 5000, false, [("x", 5000)], true⟩
           ⟨"response", some "x", JSValue.undef, JSValue.undef, "", [],
             some true, none⟩).2 ∧
     Effect.clearTimer "x"
       ∈ (rpcHandleResponse ⟨"*", none, false, [], [("x", 7)], true⟩
           ⟨"response", some "x", JSValue.undef, JSValue.undef, "", [],
             some true, none⟩).2 ∧
     (rpcAbortFire ⟨"*", none, false, [], [("x", 7)], true⟩ "id1").2
       = [Effect.clearTimer "id1", Effect.settleReject "id1" rpcAbortErr] ∧
     (∀ j dj, (j, dj) ∈ ([("x", 5000)] : List (String × Nat)) →
        Effect.clearTimer j
          ∈ (commDestroy ⟨"*", 5000, false, [("x", 5000)], true⟩).2) ∧
     (∀ j dj, (j, dj) ∈ ([("x", 7)] : List (String × Nat)) →
        Effect.clearTimer j
          ∈ (rpcDestroy ⟨"*", none, false, [], [("x", 7)], true⟩).2) ∧
     (rpcCallWithOptions ⟨"*", none, false, [], [("x", 7)], true⟩ "id1" "m" []
         none (some ⟨"boom", none⟩)).2
       = [Effect.setTimer "id1" (rpcEffectiveTimeout none),
          Effect.settleReject "id1" (rpcSendFailErr ⟨"boom", none⟩)] ∧
     ((rpcCallWithOptions ⟨"*", none, false, [], [("x", 7)], true⟩ "id1" "m" []
         none (some ⟨"boom", none⟩)).2.all (fun eff => !isClear eff)) = true ∧
     mGet (rpcCallWithOptions ⟨"*", none, false, [], [("x", 7)], true⟩ "id1" "m" []
         none (some ⟨"boom", none⟩)).1.pending "id1"
       = some (rpcEffectiveTimeout none)) :=
  timer_clear_on_exit_paths
    ⟨"*", 5000, false, [("x", 5000)], true⟩
    ⟨"*", none, false, [], [("x", 7)], true⟩
    ⟨"response", some "x", JSValue.undef, JSValue.undef, "", [], some true, none⟩
    "x" "id1" "m" 5000 7 ⟨"boom", none⟩ [] none rfl rfl rfl

/-- **C6 counterexample.**  At the concrete input — `callWithOptions` on a
fresh RPC instance whose `postMessage` throws — the effect trace contains the
`setTimeout` and the SEND_ERROR settlement but no `clearTimeout`, the table
entry is still present afterwards, and the scheduled timer callback later
runs against that already-settled call's entry; this refutes the claim that
every settling exit path (including the send-failure rejection path) clears
its timer. -/
theorem send_failure_leaves_timer_cex :
    (rpcCallWithOptions ⟨"*", none, false, [], [], true⟩ "id1" "m" [] none
        (some ⟨"boom", none⟩)).2
      = [Effect.setTimer "id1" 5000,
         Effect.settleReject "id1"
           ⟨"Failed to send RPC call: boom", some "SEND_ERROR"⟩] ∧
    ((rpcCallWithOptions ⟨"*", none, false, [], [], true⟩ "id1" "m" [] none
        (some ⟨"boom", none⟩)).2.all (fun eff => !isClear eff)) = true ∧
    mGet (rpcCallWithOptions ⟨"*", none, false, [], [], true⟩ "id1" "m" [] none
        (some ⟨"boom", none⟩)).1.pending "id1" = some 5000 ∧
    (rpcTimeoutFire (rpcCallWithOptions ⟨"*", none, false, [], [], true⟩ "id1"
        "m" [] none (some ⟨"boom", none⟩)).1 "id1").2
      = [Effect.settleReject "id1" rpcTimeoutErr] :=
  ⟨rfl, rfl, rfl, rfl⟩

/-- **C7 (amended).**  If the peer's request handler throws an `Error` with a
*nonempty* message `M`, the failure response carries `error = M` and the
issuer's `handleResponse` rejects the pending promise with an error whose
message is `M`.  (An empty `M` degrades to the generic `Request failed`
because of the truthiness fallback `response.error || 'Request failed'`.) -/
theorem handler_error_message_round_trip (sReq : CommState) (i : String)
    (d : Nat) (payload : JSValue) (M : String)
    (hp : mGet sReq.pending i = some d) (hM : M ≠ "") :
    commHandleRequest
        ⟨"request", some i, payload, JSValue.undef, "", [], none, none⟩
        (some (HandlerOutcome.errObj M)) none
      = [Effect.post ⟨"response", some i, JSValue.undef, JSValue.undef, "", [],
          some false, some M⟩] ∧
    commHandleResponse sReq
        ⟨"response", some i, JSValue.undef, JSValue.undef, "", [],
          some false, some M⟩
      = ({ sReq with pending := mDelete sReq.pending i },
         [Effect.clearTimer i, Effect.settleReject i ⟨M, none⟩]) ∧
    (JSError.mk M none).message = M := by
  refine ⟨rfl, ?_, rfl⟩
  simp [commHandleResponse, hp, commPeerErr, jsOrStr, hM]

theorem handler_error_message_round_trip_witness :
    (commHandleRequest
        ⟨"request", some "x", JSValue.str "q", JSValue.undef, "", [], none, none⟩
        (some (HandlerOutcome.errObj "boom")) none
      = [Effect.post ⟨"response", some "x", JSValue.undef, JSValue.undef, "", [],
          some false, some "boom"⟩] ∧
     commHandleResponse ⟨"*", 5000, false, [("x", 5000)], true⟩
        ⟨"response", some "x", JSValue.undef, JSValue.undef, "", [],
          some false, some "boom"⟩
      = ({ (⟨"*", 5000, false, [("x", 5000)], true⟩ : CommState) with
            pending := mDelete [("x", 5000)] "x" },
         [Effect.clearTimer "x", Effect.settleReject "x" ⟨"boom", none⟩]) ∧
     (JSError.mk "boom" none).message = "boom") :=
  handler_error_message_round_trip ⟨"*", 5000, false, [("x", 5000)], true⟩
    "x" 5000 (JSValue.str "q") "boom" rfl (by decide)

/-- **C7 counterexample.**  At the concrete input `M = ""` (a handler
throwing `new Error("")`), the failure response carries `error = ""`, and the
issuer rejects with message `"Request failed"` — not with `M` — because of
the `response.error || 'Request failed'` fallback; this refutes the claim as
stated for every message `M`. -/
theorem empty_handler_message_degrades_cex :
    commHandleRequest
        ⟨"request", some "x", JSValue.str "q", JSValue.undef, "", [], none, none⟩
        (some (HandlerOutcome.errObj "")) none
      = [Effect.post ⟨"response", some "x", JSValue.undef, JSValue.undef, "", [],
          some false, some ""⟩] ∧
    (commHandleResponse ⟨"*", 5000, false, [("x", 5000)], true⟩
        ⟨"response", some "x", JSValue.undef, JSValue.undef, "", [],
          some false, some ""⟩).2
      = [Effect.clearTimer "x",
         Effect.settleReject "x" ⟨"Request failed", none⟩] ∧
    ("Request failed" : String) ≠ "" :=
  ⟨rfl, rfl, by decide⟩

/-- **C8 (amended).**  The parameter-metadata validator rejects the
out-of-order range `{type:'range', min:100, max:0}` (with or without a
`name`); but since `ParamMetaBaseSchema` makes `name` a required nonempty
string, an in-order range descriptor is accepted only when it also carries a
name — e.g. `{name:'volume', type:'range', min:0, max:100}` (with or without
a positive `step`). -/
theorem range_descriptor_validation :
    validateParamMeta (JSValue.obj [("type", JSValue.str "range"),
      ("min", JSValue.num 100), ("max", JSValue.num 0)]) = false ∧
    validateParamMeta (JSValue.obj [("name", JSValue.str "volume"),
      ("type", JSValue.str "range"), ("min", JSValue.num 100),
      ("max", JSValue.num 0)]) = false ∧
    validateParamMeta (JSValue.obj [("name", JSValue.str "volume"),
      ("type", JSValue.str "range"), ("min", JSValue.num 0),
      ("max", JSValue.num 100)]) = true ∧
    validateParamMeta (JSValue.obj [("name", JSValue.str "volume"),
      ("type", JSValue.str "range"), ("min", JSValue.num 0),
      ("max", JSValue.num 100), ("step", JSValue.num 5)]) = true :=
  ⟨rfl, rfl, rfl, rfl⟩

/-- **C8 counterexample.**  At the exact descriptor of the claim,
`{type:'range', min:0, max:100}`, validation fails — `name` is a required
nonempty string in `ParamMetaBaseSchema` — refuting the claim that this
descriptor is accepted. -/
theorem nameless_range_accepted_refuted_cex :
    validateParamMeta (JSValue.obj [("type", JSValue.str "range"),
      ("min", JSValue.num 0), ("max", JSValue.num 100)]) = false := rfl

/-- **C9 (amended).**  After `expose(name, fn)` the function is invocable via
`call(name, args)` for every name; and because `expose` also installs the
function on the window, the entry survives a subsequent `refresh()` exactly
when the name matches the naming predicate — `refreshFunctions` replaces the
table with a pattern-filtered window scan, so a non-matching exposed name is
dropped (its later `call` reports `Function not found`). -/
theorem expose_call_and_refresh (s : DevState) (name : String) (tok : Nat) :
    devCall (devExpose s name tok) name = Except.ok tok ∧
    (s.pat name = true →
      devCall (devRefresh (devExpose s name tok)) name = Except.ok tok) ∧
    (s.pat name = false →
      devCall (devRefresh (devExpose s name tok)) name
        = Except.error ("Function not found: " ++ name)) := by
  refine ⟨?_, ?_, ?_⟩
  · simp [devCall, devExpose, mGet_mSet_self]
  · intro h
    simp [devCall, devRefresh, devExpose,
      mGet_scanWindow_mSet_self s.pat s.window name tok h]
  · intro h
    simp [devCall, devRefresh, devExpose,
      mGet_scanWindow_of_pat_false s.pat _ name h]

theorem expose_call_and_refresh_witness :
    (devCall (devExpose ⟨defaultPat, [], []⟩ "__greet" 1) "__greet"
       = Except.ok 1 ∧
     (defaultPat "__greet" = true →
       devCall (devRefresh (devExpose ⟨defaultPat, [], []⟩ "__greet" 1)) "__greet"
         = Except.ok 1) ∧
     (defaultPat "__greet" = false →
       devCall (devRefresh (devExpose ⟨defaultPat, [], []⟩ "__greet" 1)) "__greet"
         = Except.error ("Function not found: " ++ "__greet"))) :=
  expose_call_and_refresh ⟨defaultPat, [], []⟩ "__greet" 1

/-- **C9 counterexample.**  At the concrete input — default pattern `/^__/`
and `expose("plainFn", fn)` with a name that does not satisfy it — the
function is callable right after `expose`, but a subsequent `refresh()`
rebuilds `exposedFunctions` from the pattern-filtered window scan and drops
it: `call("plainFn")` then fails with `Function not found`, refuting the
claim that the entry is still present and callable after refresh for names
that do not satisfy the naming predicate. -/
theorem expose_dropped_by_refresh_cex :
    devCall (devExpose ⟨defaultPat, [], []⟩ "plainFn" 7) "plainFn"
      = Except.ok 7 ∧
    devCall (devRefresh (devExpose ⟨defaultPat, [], []⟩ "plainFn" 7)) "plainFn"
      = Except.error "Function not found: plainFn" ∧
    defaultPat "plainFn" = false :=
  ⟨rfl, rfl, rfl⟩

theorem jsOrNat_ne_zero (v : Option Nat) (d : Nat) (hd : d ≠ 0) :
    jsOrNat v d ≠ 0 := by
  cases v with
  | none => simpa [jsOrNat] using hd
  | some n =>
      cases n with
      | zero => simpa [jsOrNat] using hd
      | succ k => simp [jsOrNat]

/-- **C10 (amended).**  A per-call timeout of `0` (falsy) never means
fail-immediately or no-timeout: the truthiness fallback makes `0` fall back
to the constructor-configured default — which is 5000 only when no
constructor timeout was given — for `Communicator.request`, and to the fixed
5000 for RPC `callWithOptions`; the effective timer duration is never 0. -/
theorem zero_timeout_falls_back (s : CommState) (tArg : Option Nat)
    (o : Option String) (hm : Bool) :
    rpcEffectiveTimeout (some 0) = 5000 ∧
    commEffectiveTimeout s (some 0) = jsOrNat (some s.ctorTimeout) 5000 ∧
    commEffectiveTimeout (mkCommState o none hm) (some 0) = 5000 ∧
    commEffectiveTimeout s tArg ≠ 0 ∧
    rpcEffectiveTimeout tArg ≠ 0 := by
  refine ⟨rfl, rfl, rfl, ?_, ?_⟩
  · exact jsOrNat_ne_zero tArg _
      (jsOrNat_ne_zero (some s.ctorTimeout) 5000 (by decide))
  · exact jsOrNat_ne_zero tArg 5000 (by decide)

/-- **C10 counterexample.**  At the concrete input — a Communicator
constructed with `timeout: 1000` and `request(payload, 0)` — the effective
timer duration is 1000 ms, the constructor default, not the claimed fixed
5000 ms. -/
theorem zero_timeout_not_5000_cex :
    commEffectiveTimeout (mkCommState none (some 1000) false) (some 0) = 1000 ∧
    (commRequest (mkCommState none (some 1000) false) "id1" JSValue.undef
        (some 0) none).2
      = [Effect.setTimer "id1" 1000,
         Effect.post ⟨"request", some "id1", JSValue.undef, JSValue.undef,
           "", [], none, none⟩] ∧
    (1000 : Nat) ≠ 5000 :=
  ⟨rfl, rfl, by decide⟩

end IframeRemote
